import Mathlib

/-
Verification of the upload and processing-status coordination layer of the
Still video-journal frontend.  The definitions below are shallow embeddings of
the TypeScript source: src/frontend/lib/firebase.ts (uploadVideo,
useProcessingProgress, useProcessingPolling), the UploadForm component in
src/frontend/components/ConfirmModal.tsx (handleFile, handleUpload), and the
transport client in src/frontend/components/VideoPlayer.tsx (fetchWithAuth,
authenticate).  Asynchronous effects are modelled by explicit traces of
network-visible actions, and the environment (network outcomes, inbound
events) is passed as data.
-/

namespace Still

/-- A selected local browser file as the upload path sees it: display name,
MIME type and size in bytes. -/
structure FileMeta where
  name : String
  type : String
  size : Nat
deriving Repr, DecidableEq

/-- Network-visible actions the upload path can issue, in issue order. -/
inductive NetAction where
  | ticketRequest (displayName : String)
  | transferPut (destination : String)
  | createVideoCall (filename storagePath : String)
  | processVideoCall (videoId : String)
deriving Repr, DecidableEq

/-- The character class kept by the sanitising regex in uploadVideo:
the characters matched by [a-zA-Z0-9.-]. -/
def keepChar (c : Char) : Bool :=
  c.isAlphanum || c == '.' || c == '-'

/-- file.name.replace(/[^a-zA-Z0-9.-]/g, "_") from uploadVideo: every character
outside the kept class is replaced by an underscore, character by character. -/
def sanitizedName (name : String) : String :=
  ⟨name.data.map (fun c => if keepChar c then c else '_')⟩

/-- The storage path uploadVideo builds client-side:
videos/ followed by the timestamp, an underscore and the sanitised name. -/
def storagePathFor (timestamp : Nat) (file : FileMeta) : String :=
  "videos/" ++ toString timestamp ++ "_" ++ sanitizedName file.name

/-- The value uploadVideo resolves with on transfer completion. -/
structure UploadResult where
  storagePath : String
  filename : String
deriving Repr, DecidableEq

/-- Network actions issued by uploadVideo (src/frontend/lib/firebase.ts): the
function builds the storage path locally, obtains a storage reference (a local
operation) and starts exactly one resumable PUT transfer to that path.  No
request to the backend REST client occurs inside uploadVideo. -/
def uploadVideoActions (timestamp : Nat) (file : FileMeta) : List NetAction :=
  [NetAction.transferPut (storagePathFor timestamp file)]

/-- The result uploadVideo resolves with in its completion callback: the
generated storage path and the original, unmodified file name. -/
def uploadVideoResult (timestamp : Nat) (file : FileMeta) : UploadResult :=
  { storagePath := storagePathFor timestamp file, filename := file.name }

/-- Outcome of a JavaScript floating-point computation as far as the progress
formula is concerned: a finite value, NaN, or positive infinity. -/
inductive JsNum where
  | num (q : ℚ)
  | nan
  | inf
deriving Repr, DecidableEq

/-- JavaScript division a / b for non-negative operands: 0 / 0 is NaN,
positive / 0 is Infinity, otherwise the exact quotient. -/
def jsDiv (a b : ℚ) : JsNum :=
  if b = 0 then (if a = 0 then JsNum.nan else JsNum.inf) else JsNum.num (a / b)

/-- The progress percentage computed in uploadVideo's state_changed observer:
(snapshot.bytesTransferred / snapshot.totalBytes) * 100, with no clamping and
no guard against a zero total. -/
def progressPercent (bytesTransferred totalBytes : Nat) : JsNum :=
  match jsDiv (bytesTransferred : ℚ) (totalBytes : ℚ) with
  | JsNum.num q => JsNum.num (q * 100)
  | JsNum.nan => JsNum.nan
  | JsNum.inf => JsNum.inf

/-- The UploadProgress record passed to the onProgress callback. -/
structure UploadProgress where
  progress : JsNum
  bytesTransferred : Nat
  totalBytes : Nat
deriving Repr, DecidableEq

/-- One progress tick as emitted to the onProgress callback. -/
def progressSample (bytesTransferred totalBytes : Nat) : UploadProgress :=
  { progress := progressPercent bytesTransferred totalBytes
    bytesTransferred := bytesTransferred
    totalBytes := totalBytes }

/-- The UploadState union of the UploadForm component
(src/frontend/components/ConfirmModal.tsx). -/
inductive UploadState where
  | idle
  | uploading
  | creating
  | processing
  | complete
  | error
deriving Repr, DecidableEq

/-- The slice of the UploadForm component state referenced by the upload
handlers: the selected file, the session state and the error message.
(Presentational fields such as dragOver and the progress sample cache are not
read by any modelled transition.) -/
structure FormState where
  file : Option FileMeta
  state : UploadState
  error : Option String
deriving Repr, DecidableEq

/-- Shallow embedding of handleFile: the synchronous validation run when a file
is selected or dropped.  A non-video MIME type or a size above 2 GiB only sets
the error message and returns; the file is stored (and the error cleared) only
when both checks pass. -/
def handleFile (s : FormState) (selectedFile : FileMeta) : FormState :=
  if selectedFile.type.startsWith "video/" = false then
    { s with error := some "Please select a video file" }
  else if selectedFile.size > 2 * 1024 * 1024 * 1024 then
    { s with error := some "File too large. Maximum size is 2GB" }
  else
    { s with file := some selectedFile, error := none }

/-- Network actions issued by handleFile: the handler body only calls setFile
and setError, so it performs no network activity at all. -/
def handleFileActions (_ : FormState) (_ : FileMeta) : List NetAction := []

/-- Environment outcomes for the awaited steps of one handleUpload run: the
timestamp used for the storage path, whether the transfer promise resolves,
whether createVideo resolves and the id of the created record, whether
processVideo resolves, and the message of the error thrown by a rejecting
step. -/
structure UploadEnv where
  timestamp : Nat
  uploadOk : Bool
  createOk : Bool
  videoId : String
  processOk : Bool
  errMsg : String
deriving Repr, DecidableEq

/-- Shallow embedding of handleUpload (src/frontend/components/ConfirmModal.tsx).
The body is a single async function: each backend step is awaited before the
next statement runs, and a rejection anywhere jumps to the catch block, which
sets the error state and issues nothing further.  The returned list holds the
network actions in issue order; the returned state is the state when the run
settles (before the 2 second reset back to idle). -/
def handleUpload (s : FormState) (env : UploadEnv) : FormState × List NetAction :=
  match s.file with
  | none => (s, [])
  | some file =>
    let acts1 := uploadVideoActions env.timestamp file
    if env.uploadOk = false then
      ({ s with state := UploadState.error, error := some env.errMsg }, acts1)
    else
      let result := uploadVideoResult env.timestamp file
      let acts2 := acts1 ++ [NetAction.createVideoCall result.filename result.storagePath]
      if env.createOk = false then
        ({ s with state := UploadState.error, error := some env.errMsg }, acts2)
      else
        let acts3 := acts2 ++ [NetAction.processVideoCall env.videoId]
        if env.processOk = false then
          ({ s with state := UploadState.error, error := some env.errMsg }, acts3)
        else
          ({ s with state := UploadState.complete, error := none }, acts3)

/-- A ProcessingProgress value cached by the progress hook. -/
structure ProcessingProgress where
  stage : String
  message : String
  percent : ℚ
deriving Repr, DecidableEq

/-- An inbound server-sent message after JSON decoding: a progress payload, a
bare connected acknowledgment, or a frame whose parse or shape fails (the
catch branch). -/
inductive SseMsg where
  | progressMsg (stage message : String) (percent : ℚ)
  | connectedMsg
  | malformed
deriving Repr, DecidableEq

/-- The state of one useProcessingProgress subscription: the cached latest
event, the connection flag and whether the EventSource has been closed. -/
structure MonitorState where
  progress : Option ProcessingProgress
  isConnected : Bool
  closed : Bool
deriving Repr, DecidableEq

/-- Shallow embedding of the onmessage handler of useProcessingProgress
(src/frontend/lib/firebase.ts).  A closed EventSource dispatches no further
message events, so the handler acts as the identity once closed.  A progress
payload replaces the cached event and, when its stage is complete or failed,
closes the source and clears the connection flag; a connected acknowledgment
only sets the connection flag; a malformed frame is logged and ignored. -/
def onMessage (s : MonitorState) (m : SseMsg) : MonitorState :=
  if s.closed then s
  else
    match m with
    | SseMsg.progressMsg stage message percent =>
      let s2 := { s with progress := some { stage, message, percent } }
      if stage = "complete" ∨ stage = "failed" then
        { s2 with closed := true, isConnected := false }
      else s2
    | SseMsg.connectedMsg => { s with isConnected := true }
    | SseMsg.malformed => s

/-- Processing of a whole inbound event sequence by one subscription. -/
def runMessages (s : MonitorState) (ms : List SseMsg) : MonitorState :=
  ms.foldl onMessage s

/-- Actions the onerror handler can schedule: a reconnect after a delay in
milliseconds.  startPolling is included only to express that the handler never
engages the polling fallback by itself. -/
inductive MonitorAction where
  | reconnectAfter (delayMs : Nat)
  | startPolling
deriving Repr, DecidableEq

/-- Shallow embedding of the onerror handler of useProcessingProgress: with
maxRetries = 3, while retryCount < 3 it increments retryCount and schedules
connect after 2000 * retryCount ms (the incremented value); at the cap it
schedules nothing. -/
def onErrorStep (retryCount : Nat) : Nat × List MonitorAction :=
  if retryCount < 3 then
    (retryCount + 1, [MonitorAction.reconnectAfter (2000 * (retryCount + 1))])
  else
    (retryCount, [])

/-- The actions scheduled over a run of consecutive channel errors, starting
from a given retryCount (onopen resets retryCount to 0, so a run of
consecutive errors on a fresh or re-opened connection starts at 0). -/
def runErrors : Nat → Nat → List MonitorAction
  | _, 0 => []
  | rc, Nat.succ n => (onErrorStep rc).2 ++ runErrors (onErrorStep rc).1 n

/-- Setup actions of the useProcessingPolling effect for an active
subscription: register a 3000 ms interval, then fire one immediate poll. -/
inductive PollAction where
  | registerInterval (ms : Nat)
  | pollRequest (videoId : String)
deriving Repr, DecidableEq

/-- The effect body of useProcessingPolling (src/frontend/lib/firebase.ts): it
calls setInterval(poll, 3000) and then poll() once, synchronously, so the
immediate poll fires before the first interval elapses. -/
def pollingSetup (videoId : String) : List PollAction :=
  [PollAction.registerInterval 3000, PollAction.pollRequest videoId]

/-- State accumulated by poll(): the latest stored status and the number of
times the onComplete callback has fired. -/
structure PollState where
  status : Option String
  completions : Nat
deriving Repr, DecidableEq

/-- One execution of poll(): a successful (response.ok) fetch stores the
returned status and fires onComplete when it is ready or failed; a non-ok
response or a thrown network error only logs and leaves the state unchanged.
poll() contains no clearInterval call. -/
def pollOnce (s : PollState) (response : Option String) : PollState :=
  match response with
  | some st =>
    { status := some st
      completions := s.completions + (if st = "ready" ∨ st = "failed" then 1 else 0) }
  | none => s

/-- A mounted polling subscription: the interval set up by the effect is
cleared only by the effect cleanup (unmount or dependency change), never by
poll() itself, so every elapsed tick of the environment issues another poll.
Returns the final state and the number of polls issued, one per tick. -/
def runPolls (s : PollState) (responses : List (Option String)) : PollState × Nat :=
  (responses.foldl pollOnce s, responses.length)

/-- Client auth state the transport client touches: the stored token and the
window location. -/
structure AuthState where
  token : Option String
  location : String
deriving Repr, DecidableEq

/-- The headers fetchWithAuth (src/frontend/components/VideoPlayer.tsx model of
lib/api.ts) attaches: the JSON content type always, and an Authorization
bearer header only when a token is stored. -/
def fetchWithAuthHeaders (token : Option String) : List (String × String) :=
  [("Content-Type", "application/json")] ++
    (match token with
     | some t => [("Authorization", "Bearer " ++ t)]
     | none => [])

/-- A request as the transport client sends it: target endpoint and headers. -/
structure ApiRequest where
  endpoint : String
  headers : List (String × String)
deriving Repr, DecidableEq

/-- The request fetchWithAuth issues for a given stored token and endpoint. -/
def fetchWithAuthRequest (token : Option String) (endpoint : String) : ApiRequest :=
  { endpoint := endpoint, headers := fetchWithAuthHeaders token }

/-- Whether a request carries a bearer token. -/
def hasBearer (r : ApiRequest) : Bool :=
  r.headers.any (fun h => h.1 == "Authorization")

/-- Response handling of fetchWithAuth: a 401 removes the stored token,
redirects the window to /login and throws an Unauthorized error; any other
status returns the response to the caller. -/
def fetchWithAuthResponse (st : AuthState) (status : Nat) :
    AuthState × Except String Nat :=
  if status = 401 then
    ({ token := none, location := "/login" }, Except.error "Unauthorized")
  else
    (st, Except.ok status)

/-- The headers of the authenticate call: POST /auth is made with plain fetch
and only the JSON content type, never a bearer token. -/
def authenticateHeaders : List (String × String) :=
  [("Content-Type", "application/json")]

/-- Truthiness of a nullable string in the source guards: both null and the
empty string are falsy in JavaScript. -/
def falsyStr : Option String → Bool
  | none => true
  | some s => s.isEmpty

/-- The externally observable state of the useProcessingProgress hook. -/
structure ProgressHookState where
  progress : Option ProcessingProgress
  isConnected : Bool
deriving Repr, DecidableEq

/-- Channel actions the progress hook effect can take on setup. -/
inductive ChannelAction where
  | openChannel (url : String)
deriving Repr, DecidableEq

/-- Shallow embedding of the effect setup of useProcessingProgress: with a
falsy videoId or enabled = false it resets progress to null and isConnected to
false and returns without connecting; with a falsy token it returns leaving
the state as it was; otherwise connect() opens one EventSource on the progress
URL. -/
def progressEffectSetup (apiUrl : String) (videoId : Option String)
    (enabled : Bool) (token : Option String) (s : ProgressHookState) :
    ProgressHookState × List ChannelAction :=
  if falsyStr videoId || !enabled then
    ({ progress := none, isConnected := false }, [])
  else if falsyStr token then
    (s, [])
  else
    (s, [ChannelAction.openChannel
          (apiUrl ++ "/videos/" ++ videoId.getD "" ++ "/progress")])

/-- A subscription whose EventSource is closed processes no further events. -/
theorem runMessages_of_closed (s : MonitorState) (ms : List SseMsg)
    (h : s.closed = true) : runMessages s ms = s := by
  induction ms with
  | nil => rfl
  | cons m ms ih =>
    have hm : onMessage s m = s := by simp [onMessage, h]
    calc runMessages s (m :: ms) = runMessages (onMessage s m) ms := rfl
    _ = runMessages s ms := by rw [hm]
    _ = s := ih

/-- Once retryCount has reached the cap of 3, no further action is ever
scheduled by the onerror handler. -/
theorem runErrors_at_cap (n : Nat) : runErrors 3 n = [] := by
  induction n with
  | zero => rfl
  | succ k ih => simpa [runErrors, onErrorStep] using ih

/-- The onerror handler never engages the polling fallback. -/
theorem runErrors_no_polling (n rc : Nat) :
    MonitorAction.startPolling ∉ runErrors rc n := by
  induction n generalizing rc with
  | zero => simp [runErrors]
  | succ k ih =>
    by_cases h : rc < 3 <;> simp [runErrors, onErrorStep, h, ih]

/-- C9: for every file the Upload Coordinator generates the storage
destination path client-side as "videos/" followed by the timestamp, an
underscore, and the file name with every character outside [a-zA-Z0-9.-]
replaced by an underscore, and on success it resolves with exactly this
generated storagePath and the unmodified original filename. -/
theorem uploadVideo_client_side_storage_path (timestamp : Nat) (file : FileMeta) :
    (uploadVideoResult timestamp file).storagePath
        = "videos/" ++ toString timestamp ++ "_" ++ sanitizedName file.name
    ∧ (uploadVideoResult timestamp file).filename = file.name
    ∧ (sanitizedName file.name).data
        = file.name.data.map (fun c => if keepChar c then c else '_')
    ∧ ∀ c ∈ (sanitizedName file.name).data, keepChar c = true ∨ c = '_' := by
  have hdata : (sanitizedName file.name).data
      = file.name.data.map (fun c => if keepChar c then c else '_') := rfl
  refine ⟨rfl, rfl, hdata, ?_⟩
  intro c hc
  rw [hdata, List.mem_map] at hc
  obtain ⟨a, _, rfl⟩ := hc
  by_cases h : keepChar a = true
  · exact Or.inl (by simp [h])
  · exact Or.inr (by simp [h])

/-- Witness for C9 at a file whose name holds a space and an at sign. -/
theorem uploadVideo_storage_path_witness :
    (uploadVideoResult 7
        { name := "my clip@2.mp4", type := "video/mp4", size := 12 }).storagePath
      = "videos/" ++ toString 7 ++ "_" ++ sanitizedName "my clip@2.mp4"
    ∧ (uploadVideoResult 7
        { name := "my clip@2.mp4", type := "video/mp4", size := 12 }).filename
      = "my clip@2.mp4" :=
  ⟨(uploadVideo_client_side_storage_path 7
      { name := "my clip@2.mp4", type := "video/mp4", size := 12 }).1,
   (uploadVideo_client_side_storage_path 7
      { name := "my clip@2.mp4", type := "video/mp4", size := 12 }).2.1⟩

/-- C1 counterexample: as stated the claim is false — for this concrete file
the first (and only) network action of uploadVideo is the direct PUT transfer,
not an UploadTicket request to the Transport Client. -/
theorem uploadVideo_first_action_not_ticket :
    ¬ ∃ d, (uploadVideoActions 1700000000000
        { name := "clip.mp4", type := "video/mp4", size := 1000 }).head?
          = some (NetAction.ticketRequest d) := by
  rintro ⟨d, hd⟩
  simp [uploadVideoActions] at hd

/-- C1 amended: uploadVideo obtains no UploadTicket from the Transport Client;
its only network action is the PUT transfer to the destination path it
generates client-side from the timestamp and sanitised display name, and on
transfer completion it resolves with that storagePath and the original
filename. -/
theorem uploadVideo_direct_transfer_protocol (timestamp : Nat) (file : FileMeta) :
    (∀ d, NetAction.ticketRequest d ∉ uploadVideoActions timestamp file)
    ∧ uploadVideoActions timestamp file
        = [NetAction.transferPut (storagePathFor timestamp file)]
    ∧ uploadVideoResult timestamp file
        = { storagePath := storagePathFor timestamp file, filename := file.name } := by
  refine ⟨?_, rfl, rfl⟩
  intro d hd
  simp [uploadVideoActions] at hd

/-- Witness for C1 amended at a concrete file. -/
theorem uploadVideo_direct_transfer_witness :
    (∀ d, NetAction.ticketRequest d
        ∉ uploadVideoActions 5 { name := "clip.mp4", type := "video/mp4", size := 1000 })
    ∧ uploadVideoActions 5 { name := "clip.mp4", type := "video/mp4", size := 1000 }
        = [NetAction.transferPut
            (storagePathFor 5 { name := "clip.mp4", type := "video/mp4", size := 1000 })]
    ∧ uploadVideoResult 5 { name := "clip.mp4", type := "video/mp4", size := 1000 }
        = { storagePath :=
              storagePathFor 5 { name := "clip.mp4", type := "video/mp4", size := 1000 },
            filename := "clip.mp4" } :=
  uploadVideo_direct_transfer_protocol 5
    { name := "clip.mp4", type := "video/mp4", size := 1000 }

/-- C2: a file whose MIME type does not begin with "video/" or whose size
exceeds 2 GiB is rejected synchronously by handleFile: only the validation
error message is set, the file is never stored as the selection, and no
network action is issued; on a session with no selected file the subsequent
handleUpload then issues no network call at all. -/
theorem handleFile_rejects_invalid_without_network (s : FormState) (f : FileMeta)
    (env : UploadEnv)
    (h : f.type.startsWith "video/" = false ∨ 2 * 1024 * 1024 * 1024 < f.size) :
    (handleFile s f).error.isSome = true
    ∧ (handleFile s f).file = s.file
    ∧ handleFileActions s f = []
    ∧ (s.file = none → (handleUpload (handleFile s f) env).2 = []) := by
  have hfe : (handleFile s f).error.isSome = true ∧ (handleFile s f).file = s.file := by
    rcases h with h | h
    · simp [handleFile, h]
    · by_cases ht : f.type.startsWith "video/" = false
      · simp [handleFile, ht]
      · simp [handleFile, ht, h]
  refine ⟨hfe.1, hfe.2, rfl, ?_⟩
  intro hn
  have hff : (handleFile s f).file = none := hfe.2.trans hn
  simp [handleUpload, hff]

/-- Witness for C2: a 3 GiB video file is rejected with no network call. -/
theorem handleFile_rejects_invalid_witness :
    (handleFile { file := none, state := UploadState.idle, error := none }
        { name := "big.mp4", type := "video/mp4",
          size := 3 * 1024 * 1024 * 1024 }).error.isSome = true := by
  exact (handleFile_rejects_invalid_without_network
    { file := none, state := UploadState.idle, error := none }
    { name := "big.mp4", type := "video/mp4", size := 3 * 1024 * 1024 * 1024 }
    { timestamp := 0, uploadOk := true, createOk := true, videoId := "v",
      processOk := true, errMsg := "e" }
    (Or.inr (by norm_num))).1

/-- C3: within one upload session the backend steps are strictly sequential —
the action trace is the transfer, then (only once the transfer has resolved)
the createVideo call, then (only once record creation has resolved) the
processVideo call; a rejecting step truncates the trace, so process-start is
never issued before record-creation has resolved, and a createVideo call
always precedes any processVideo call. -/
theorem handleUpload_sequential_backend_calls (s : FormState) (env : UploadEnv)
    (file : FileMeta) (hf : s.file = some file) :
    (handleUpload s env).2
      = NetAction.transferPut (storagePathFor env.timestamp file)
        :: (if env.uploadOk then
              NetAction.createVideoCall file.name (storagePathFor env.timestamp file)
                :: (if env.createOk then [NetAction.processVideoCall env.videoId] else [])
            else [])
    ∧ (env.uploadOk = false →
        ∀ fn p, NetAction.createVideoCall fn p ∉ (handleUpload s env).2)
    ∧ (env.uploadOk = false ∨ env.createOk = false →
        ∀ v, NetAction.processVideoCall v ∉ (handleUpload s env).2)
    ∧ (∀ v, NetAction.processVideoCall v ∈ (handleUpload s env).2 →
        NetAction.createVideoCall file.name (storagePathFor env.timestamp file)
          ∈ (handleUpload s env).2) := by
  obtain ⟨ts, uOk, cOk, vid, pOk, msg⟩ := env
  cases uOk <;> cases cOk <;> cases pOk <;>
    simp [handleUpload, hf, uploadVideoActions, uploadVideoResult]

/-- Witness for C3: a fully successful run issues the three calls in order. -/
theorem handleUpload_sequential_witness :
    (handleUpload
        { file := some { name := "clip.mp4", type := "video/mp4", size := 1000 },
          state := UploadState.idle, error := none }
        { timestamp := 42, uploadOk := true, createOk := true, videoId := "vid1",
          processOk := true, errMsg := "boom" }).2
      = [NetAction.transferPut
            (storagePathFor 42 { name := "clip.mp4", type := "video/mp4", size := 1000 }),
         NetAction.createVideoCall "clip.mp4"
            (storagePathFor 42 { name := "clip.mp4", type := "video/mp4", size := 1000 }),
         NetAction.processVideoCall "vid1"] := by
  have h := handleUpload_sequential_backend_calls
    { file := some { name := "clip.mp4", type := "video/mp4", size := 1000 },
      state := UploadState.idle, error := none }
    { timestamp := 42, uploadOk := true, createOk := true, videoId := "vid1",
      processOk := true, errMsg := "boom" }
    { name := "clip.mp4", type := "video/mp4", size := 1000 } rfl
  simpa using h.1

/-- C4 counterexample: as stated the claim is false at an unknown total — with
totalBytes = 0 the observer computes 0 / 0, which is NaN, not the claimed
0 percent. -/
theorem progressPercent_zero_total_not_zero :
    progressPercent 0 0 = JsNum.nan ∧ progressPercent 0 0 ≠ JsNum.num 0 := by
  constructor <;> simp [progressPercent, jsDiv]

/-- C4 amended: every progress tick reports the raw ratio
bytesTransferred / totalBytes * 100 with no explicit clamping; whenever the
transferred count does not exceed a positive total this raw value already lies
in [0, 100], but a zero total is not guarded — the division yields NaN (for a
zero numerator), not 0 percent. -/
theorem progressPercent_raw_ratio_in_bounds (bt tb : Nat) (hpos : 0 < tb)
    (hle : bt ≤ tb) :
    progressPercent bt tb = JsNum.num ((bt : ℚ) / (tb : ℚ) * 100)
    ∧ 0 ≤ (bt : ℚ) / (tb : ℚ) * 100
    ∧ (bt : ℚ) / (tb : ℚ) * 100 ≤ 100 := by
  have htb : ((tb : ℚ)) ≠ 0 := Nat.cast_ne_zero.mpr hpos.ne'
  refine ⟨by simp [progressPercent, jsDiv, htb], by positivity, ?_⟩
  have h1 : (bt : ℚ) / (tb : ℚ) ≤ 1 := by
    rw [div_le_one (by positivity)]
    exact_mod_cast hle
  nlinarith [h1]

/-- Witness for C4 amended at one transferred byte of a two byte total. -/
theorem progressPercent_raw_ratio_witness :
    progressPercent 1 2 = JsNum.num ((1 : ℚ) / (2 : ℚ) * 100)
    ∧ 0 ≤ (1 : ℚ) / (2 : ℚ) * 100
    ∧ (1 : ℚ) / (2 : ℚ) * 100 ≤ 100 := by
  have h := progressPercent_raw_ratio_in_bounds 1 2 (by norm_num) (by norm_num)
  simpa using h

/-- C5: a decoded progress event whose stage is complete or failed closes the
push channel, clears the connection flag, caches itself, and is the last event
processed — folding any further inbound events over the closed subscription
changes nothing. -/
theorem terminal_event_closes_and_is_last (s : MonitorState)
    (stage message : String) (percent : ℚ) (ms : List SseMsg)
    (hopen : s.closed = false) (hterm : stage = "complete" ∨ stage = "failed") :
    (onMessage s (SseMsg.progressMsg stage message percent)).closed = true
    ∧ (onMessage s (SseMsg.progressMsg stage message percent)).isConnected = false
    ∧ (onMessage s (SseMsg.progressMsg stage message percent)).progress
        = some { stage := stage, message := message, percent := percent }
    ∧ runMessages (onMessage s (SseMsg.progressMsg stage message percent)) ms
        = onMessage s (SseMsg.progressMsg stage message percent) := by
  have hm : onMessage s (SseMsg.progressMsg stage message percent)
      = { progress := some { stage := stage, message := message, percent := percent },
          isConnected := false, closed := true } := by
    rcases hterm with h | h <;> simp [onMessage, hopen, h]
  refine ⟨by rw [hm], by rw [hm], by rw [hm], ?_⟩
  exact runMessages_of_closed _ ms (by rw [hm])

/-- Witness for C5: a complete event on an open connected subscription closes
it and later events are ignored. -/
theorem terminal_event_witness :
    (onMessage { progress := none, isConnected := true, closed := false }
        (SseMsg.progressMsg "complete" "done" 100)).closed = true
    ∧ (onMessage { progress := none, isConnected := true, closed := false }
        (SseMsg.progressMsg "complete" "done" 100)).isConnected = false
    ∧ (onMessage { progress := none, isConnected := true, closed := false }
        (SseMsg.progressMsg "complete" "done" 100)).progress
        = some { stage := "complete", message := "done", percent := 100 }
    ∧ runMessages (onMessage { progress := none, isConnected := true, closed := false }
        (SseMsg.progressMsg "complete" "done" 100)) [SseMsg.connectedMsg]
        = onMessage { progress := none, isConnected := true, closed := false }
            (SseMsg.progressMsg "complete" "done" 100) :=
  terminal_event_closes_and_is_last
    { progress := none, isConnected := true, closed := false }
    "complete" "done" 100 [SseMsg.connectedMsg] rfl (Or.inl rfl)

/-- C6: starting from a fresh connection, a run of consecutive channel errors
schedules exactly three reconnects, after 2000, 4000 and 6000 ms — the base
interval times the attempt count, hence strictly increasing — and once the cap
is reached nothing further is scheduled: no reconnect and never any polling,
for that subscription. -/
theorem reconnect_retries_capped_at_three (n : Nat) :
    runErrors 0 (n + 3)
      = [MonitorAction.reconnectAfter 2000, MonitorAction.reconnectAfter 4000,
         MonitorAction.reconnectAfter 6000]
    ∧ runErrors 3 n = []
    ∧ (∀ rc, MonitorAction.startPolling ∉ runErrors rc (n + 3)) := by
  have key : runErrors 0 (n + 3)
      = MonitorAction.reconnectAfter 2000 :: MonitorAction.reconnectAfter 4000
        :: MonitorAction.reconnectAfter 6000 :: runErrors 3 n := rfl
  have hcap := runErrors_at_cap n
  refine ⟨by rw [key, hcap], hcap, ?_⟩
  intro rc
  exact runErrors_no_polling (n + 3) rc

/-- Witness for C6 at a run of exactly three consecutive errors. -/
theorem reconnect_retries_witness :
    runErrors 0 3
      = [MonitorAction.reconnectAfter 2000, MonitorAction.reconnectAfter 4000,
         MonitorAction.reconnectAfter 6000]
    ∧ runErrors 3 0 = []
    ∧ MonitorAction.startPolling ∉ runErrors 0 3 :=
  ⟨(reconnect_retries_capped_at_three 0).1, (reconnect_retries_capped_at_three 0).2.1,
    (reconnect_retries_capped_at_three 0).2.2 0⟩

/-- C7 counterexample: as stated the claim is false — after a poll observes
ready, the next tick still issues a poll and fires the completion callback
again: two ticks of ready responses yield two polls and two callback firings,
not one. -/
theorem polling_continues_after_ready :
    (runPolls { status := none, completions := 0 }
        [some "ready", some "ready"]).2 = 2
    ∧ (runPolls { status := none, completions := 0 }
        [some "ready", some "ready"]).1.completions = 2
    ∧ (runPolls { status := none, completions := 0 }
        [some "ready", some "ready"]).2 ≠ 1 := by
  decide

/-- C7 amended: the effect registers a fixed 3000 ms interval and fires an
immediate poll before the first interval elapses; a poll observing ready or
failed stores the status and fires the completion callback, but the hook never
clears the interval itself, so every further tick of a mounted subscription
issues another poll (teardown happens only via the effect cleanup). -/
theorem polling_setup_and_completion_callback (vid st : String) (s : PollState)
    (responses : List (Option String)) (hterm : st = "ready" ∨ st = "failed") :
    pollingSetup vid = [PollAction.registerInterval 3000, PollAction.pollRequest vid]
    ∧ (runPolls s responses).2 = responses.length
    ∧ (pollOnce s (some st)).status = some st
    ∧ (pollOnce s (some st)).completions = s.completions + 1 := by
  refine ⟨rfl, rfl, rfl, ?_⟩
  rcases hterm with h | h <;> simp [pollOnce, h]

/-- Witness for C7 amended at a single ready response. -/
theorem polling_setup_witness :
    pollingSetup "v1" = [PollAction.registerInterval 3000, PollAction.pollRequest "v1"]
    ∧ (runPolls { status := none, completions := 0 } [some "ready"]).2 = 1
    ∧ (pollOnce { status := none, completions := 0 } (some "ready")).status = some "ready"
    ∧ (pollOnce { status := none, completions := 0 } (some "ready")).completions = 0 + 1 :=
  polling_setup_and_completion_callback "v1" "ready"
    { status := none, completions := 0 } [some "ready"] (Or.inl rfl)

/-- C8 counterexample: as stated the claim is false — with no stored token the
transport client sends a request to /videos carrying no bearer header, and
/videos is not /auth. -/
theorem missing_token_request_without_bearer :
    hasBearer (fetchWithAuthRequest none "/videos") = false
    ∧ (fetchWithAuthRequest none "/videos").endpoint ≠ "/auth" := by
  decide

/-- C8 amended: a 401 response makes fetchWithAuth remove the stored token,
redirect to /login and raise an error instead of returning, while any other
status returns the response; a bearer header is attached exactly when a token
is stored — so calls besides /auth also go out without a bearer when no token
is present — and the /auth call itself never carries one. -/
theorem fetchWithAuth_unauthorized_contract (st : AuthState)
    (token : Option String) (endpoint : String) (status : Nat) (t : String)
    (htok : token = some t) (hst : status ≠ 401) :
    fetchWithAuthResponse st 401
      = ({ token := none, location := "/login" }, Except.error "Unauthorized")
    ∧ fetchWithAuthResponse st status = (st, Except.ok status)
    ∧ ("Authorization", "Bearer " ++ t) ∈ (fetchWithAuthRequest token endpoint).headers
    ∧ ∀ h ∈ authenticateHeaders, h.1 ≠ "Authorization" := by
  refine ⟨rfl, by simp [fetchWithAuthResponse, hst], ?_, by decide⟩
  simp [fetchWithAuthRequest, fetchWithAuthHeaders, htok]

/-- Witness for C8 amended with a stored token and a 200 response. -/
theorem fetchWithAuth_contract_witness :
    fetchWithAuthResponse { token := some "tok", location := "/" } 401
      = ({ token := none, location := "/login" }, Except.error "Unauthorized")
    ∧ fetchWithAuthResponse { token := some "tok", location := "/" } 200
      = ({ token := some "tok", location := "/" }, Except.ok 200)
    ∧ ("Authorization", "Bearer " ++ "tok")
        ∈ (fetchWithAuthRequest (some "tok") "/videos").headers
    ∧ ∀ h ∈ authenticateHeaders, h.1 ≠ "Authorization" :=
  fetchWithAuth_unauthorized_contract { token := some "tok", location := "/" }
    (some "tok") "/videos" 200 "tok" rfl (by decide)

/-- C10: with a null videoId or enabled = false the progress hook resets its
state to no cached progress and disconnected and opens no push channel; with
no stored (truthy) token it opens no channel either. -/
theorem useProcessingProgress_inactive (apiUrl : String)
    (videoId : Option String) (enabled : Bool) (token : Option String)
    (s : ProgressHookState) :
    (videoId = none ∨ enabled = false →
      progressEffectSetup apiUrl videoId enabled token s
        = ({ progress := none, isConnected := false }, []))
    ∧ (falsyStr token = true →
      (progressEffectSetup apiUrl videoId enabled token s).2 = []) := by
  constructor
  · rintro (rfl | rfl) <;> simp [progressEffectSetup, falsyStr]
  · intro ht
    by_cases hv : (falsyStr videoId || !enabled) = true
    · simp [progressEffectSetup, hv]
    · simp [progressEffectSetup, hv, ht]

/-- Witness for C10: a null videoId opens nothing and resets the state. -/
theorem useProcessingProgress_inactive_witness :
    progressEffectSetup "http://localhost:8000" none true (some "tok")
        { progress := none, isConnected := true }
      = ({ progress := none, isConnected := false }, []) :=
  (useProcessingProgress_inactive "http://localhost:8000" none true (some "tok")
    { progress := none, isConnected := true }).1 (Or.inl rfl)

end Still
